import Mathlib

/-!
Shallow embedding of `src/whisper-service/app.py` (the Bloem whisper
transcription microservice) and proofs of its specified properties.

The service has three behaviours we model:

* `get_device_config` — startup device/precision selection.  The optional
  `torch` dependency is modelled by the boolean `torchAvailable` (an
  `ImportError` is caught by the source, so an unavailable runtime simply
  means this flag is `false`); `torch.cuda.is_available()` is modelled by
  `cudaAvailable`, and `platform.machine()` by the `machine` string.
* `transcribe` — the `POST /transcribe` handler.  Effects on the world
  (temporary-file creation, engine invocation, temporary-file deletion)
  are recorded as an explicit list of `Event`s, in the order the source
  performs them; the engine collaborator is an arbitrary function from
  the temp-file path and invocation options to an `EngineResult`.
* `health` — the `GET /health` handler, a pure read of the startup state.
-/

namespace WhisperService

/-- Python `str.lower()` on the character sequence of a string (the
architecture identifiers involved are ASCII, where `Char.toLower` agrees
with Python). -/
def pyLower (s : String) : String :=
  ⟨s.data.map Char.toLower⟩

/-- Boolean list-prefix test, structurally recursive so that concrete
instances evaluate. -/
def listStartsWith : List Char → List Char → Bool
  | _, [] => true
  | [], _ :: _ => false
  | c :: cs, d :: ds => c = d && listStartsWith cs ds

/-- Python `s.startswith(pre)`. -/
def pyStartsWith (s pre : String) : Bool :=
  listStartsWith s.data pre.data

/-- The characters Python `str.strip()` removes for ASCII input:
space, tab, newline, carriage return, vertical tab, form feed. -/
def isPySpace (c : Char) : Bool :=
  c = ' ' || c = '\t' || c = '\n' || c = '\r' || c = '\x0b' || c = '\x0c'

/-- Python `str.strip()`: remove leading and trailing whitespace. -/
def pyStrip (s : String) : String :=
  ⟨((s.data.dropWhile isPySpace).reverse.dropWhile isPySpace).reverse⟩

/-- Python `sep.join(pieces)`. -/
def strJoin (sep : String) : List String → String
  | [] => ""
  | [s] => s
  | s :: rest => s ++ sep ++ strJoin sep rest

/-- Python truthiness of a string: `""` is falsy. -/
def strNonempty (s : String) : Bool :=
  !s.data.isEmpty

/-- Result of device selection: `(device, compute_type)` strings, exactly as
`get_device_config` in `app.py` returns them. -/
def get_device_config (torchAvailable cudaAvailable : Bool) (machine : String) :
    String × String :=
  if torchAvailable && cudaAvailable then
    ("cuda", "float16")
  else if pyLower machine = "arm64" ∨ pyLower machine = "aarch64" then
    ("cpu", "float32")
  else
    ("cpu", "int8")

/-- The fixed media-type → filename-suffix dictionary from `_get_suffix`. -/
def suffixMapping : List (String × String) :=
  [("audio/webm", ".webm"),
   ("audio/wav", ".wav"),
   ("audio/wave", ".wav"),
   ("audio/x-wav", ".wav"),
   ("audio/mp3", ".mp3"),
   ("audio/mpeg", ".mp3"),
   ("audio/m4a", ".m4a"),
   ("audio/mp4", ".m4a"),
   ("audio/ogg", ".ogg"),
   ("audio/flac", ".flac")]

/-- Association-list lookup with a default, mirroring Python
`mapping.get(content_type, ".audio")`. -/
def lookupDefault (ct : String) : List (String × String) → String
  | [] => ".audio"
  | (k, v) :: rest => if ct = k then v else lookupDefault ct rest

/-- `_get_suffix` from `app.py`: file suffix for a declared content type. -/
def _get_suffix (content_type : String) : String :=
  lookupDefault content_type suffixMapping

/-- A transcription segment as consumed by the handler (only its text). -/
structure Segment where
  text : String
  deriving DecidableEq

/-- The `info` object returned by the engine alongside the segments. -/
structure TranscriptionInfo where
  language : String
  language_probability : Rat
  duration : Rat
  deriving DecidableEq

/-- The invocation options the handler passes to `model.transcribe`. -/
structure TranscribeOptions where
  beam_size : Nat
  language : Option String
  vad_filter : Bool
  deriving DecidableEq

/-- The options fixed by the source: `beam_size=5, language=None,
vad_filter=True`. -/
def requestOptions : TranscribeOptions :=
  ⟨5, none, true⟩

/-- Outcome of one engine invocation: either segments plus info, or a raised
exception carrying a message (`str(e)` in the source). -/
inductive EngineResult where
  | ok (segments : List Segment) (info : TranscriptionInfo)
  | err (msg : String)

/-- The engine collaborator, abstracted: a function of the temp-file path and
the invocation options. -/
def Engine : Type :=
  String → TranscribeOptions → EngineResult

/-- Observable side effects of the `/transcribe` handler, in program order. -/
inductive Event where
  | createTemp (path : String)
  | callEngine (path : String)
  | unlink (path : String)
  deriving DecidableEq

/-- Result of the handler: a 200 JSON body, or an `HTTPException`. -/
inductive HandlerResult where
  | ok (text language : String) (language_probability duration : Rat)
  | httpError (status : Nat) (detail : String)
  deriving DecidableEq

/-- Python truthiness of `file.content_type`: `None` and `""` are falsy. -/
def contentTypeTruthy : Option String → Bool
  | none => false
  | some s => strNonempty s

/-- How the declared content type renders inside the f-string error message:
Python formats `None` as the text "None". -/
def contentTypeText : Option String → String
  | none => "None"
  | some s => s

/-- The `POST /transcribe` handler from `app.py`.  `tmpBase` models the unique
temp-file name chosen by `tempfile.NamedTemporaryFile` (the resolved suffix is
appended to it).  Returns the HTTP-level result together with the trace of
side effects the handler performed. -/
def transcribe (engine : Engine) (tmpBase : String)
    (content_type : Option String) : HandlerResult × List Event :=
  if !contentTypeTruthy content_type
      || !(pyStartsWith (contentTypeText content_type) "audio/") then
    (.httpError 400 ("Expected audio file, got " ++ contentTypeText content_type),
     [])
  else
    let suffix := _get_suffix (contentTypeText content_type)
    let tmp_path := tmpBase ++ suffix
    match engine tmp_path requestOptions with
    | .ok segments info =>
        (.ok (strJoin " " (segments.map (fun seg => pyStrip seg.text)))
           info.language info.language_probability info.duration,
         [.createTemp tmp_path, .callEngine tmp_path, .unlink tmp_path])
    | .err msg =>
        (.httpError 500 ("Transcription failed: " ++ msg),
         [.createTemp tmp_path, .callEngine tmp_path, .unlink tmp_path])

/-- Effect of one event on the set of existing temporary files. -/
def applyEvent (files : List String) : Event → List String
  | .createTemp p => p :: files
  | .unlink p => files.erase p
  | .callEngine _ => files

/-- Temporary files existing after a trace of events, starting from `files`. -/
def filesAfter (files : List String) : List Event → List String
  | [] => files
  | e :: es => filesAfter (applyEvent files e) es

/-- Number of `unlink p` events in a trace. -/
def countUnlinks (p : String) : List Event → Nat
  | [] => 0
  | .unlink q :: es => (if q = p then 1 else 0) + countUnlinks p es
  | _ :: es => countUnlinks p es

/-- Number of engine invocations in a trace. -/
def countCalls : List Event → Nat
  | [] => 0
  | .callEngine _ :: es => 1 + countCalls es
  | _ :: es => countCalls es

/-- Number of temp-file creations in a trace. -/
def countCreates : List Event → Nat
  | [] => 0
  | .createTemp _ :: es => 1 + countCreates es
  | _ :: es => countCreates es

/-- The process-wide state established at startup: `MODEL_SIZE`, `DEVICE`,
`COMPUTE_TYPE`. -/
structure AppState where
  model_size : String
  device : String
  compute_type : String
  deriving DecidableEq

/-- `DEVICE, COMPUTE_TYPE = get_device_config()` together with the configured
model identifier. -/
def startupState (model_size : String) (torchAvailable cudaAvailable : Bool)
    (machine : String) : AppState :=
  ⟨model_size, (get_device_config torchAvailable cudaAvailable machine).1,
   (get_device_config torchAvailable cudaAvailable machine).2⟩

/-- The JSON body returned by `GET /health`. -/
structure HealthResponse where
  status : String
  model : String
  device : String
  compute_type : String
  deriving DecidableEq

/-- The `GET /health` handler from `app.py`: a pure read of the startup
state; it takes no engine and performs no effects. -/
def health (st : AppState) : HealthResponse :=
  ⟨"ok", st.model_size, st.device, st.compute_type⟩

/-! ### Helper lemmas -/

/-- A string that starts with "audio/" is nonempty, hence truthy in Python. -/
theorem strNonempty_of_audio (s : String) (h : pyStartsWith s "audio/" = true) :
    strNonempty s = true := by
  cases s with
  | mk data =>
    cases data with
    | nil => exact absurd h (by decide)
    | cons c cs => rfl

/-- The validation condition of the handler is false when the declared type is
a nonempty string starting with "audio/". -/
theorem validationCond_false (s : String) (h : pyStartsWith s "audio/" = true) :
    (!contentTypeTruthy (some s)
      || !(pyStartsWith (contentTypeText (some s)) "audio/")) = false := by
  simp only [contentTypeTruthy, contentTypeText, strNonempty_of_audio s h, h,
    Bool.not_true, Bool.or_self]

/-- Characterization of the handler on a validated content type: the temp
file is created at `tmpBase ++ suffix`, the engine is invoked once on it with
the fixed options, its result is mapped, and the file is unlinked. -/
theorem transcribe_some_eq (engine : Engine) (tmpBase s : String)
    (h : pyStartsWith s "audio/" = true) :
    transcribe engine tmpBase (some s) =
      ((match engine (tmpBase ++ _get_suffix s) requestOptions with
        | .ok segments info =>
            .ok (strJoin " " (segments.map fun seg => pyStrip seg.text))
              info.language info.language_probability info.duration
        | .err msg => .httpError 500 ("Transcription failed: " ++ msg)),
       [.createTemp (tmpBase ++ _get_suffix s),
        .callEngine (tmpBase ++ _get_suffix s),
        .unlink (tmpBase ++ _get_suffix s)]) := by
  unfold transcribe
  rw [if_neg (by simp [validationCond_false s h])]
  dsimp only [contentTypeText]
  cases engine (tmpBase ++ _get_suffix s) requestOptions <;> rfl

/-- Lookup with default returns the default when the key is absent. -/
theorem lookupDefault_not_mem (ct : String) (l : List (String × String))
    (h : ∀ kv ∈ l, ct ≠ kv.1) : lookupDefault ct l = ".audio" := by
  induction l with
  | nil => rfl
  | cons kv rest ih =>
    obtain ⟨k, v⟩ := kv
    show (if ct = k then v else lookupDefault ct rest) = ".audio"
    rw [if_neg (h (k, v) (List.mem_cons_self _ _))]
    exact ih fun kv hkv => h kv (List.mem_cons_of_mem _ hkv)

/-! ### Claim theorems -/

/-- C1: device selection is a total, deterministic function of GPU
availability and the architecture string: whenever a usable GPU is reported
it returns ("cuda", "float16") regardless of architecture; when the torch
runtime is missing (the caught ImportError, modelled by
`torchAvailable = false`) selection falls through to the CPU branches
instead of raising; and every input lands in exactly one of the three
configurations. -/
theorem c1_device_selection (torchAvailable cudaAvailable : Bool)
    (machine : String) :
    get_device_config true true machine = ("cuda", "float16") ∧
    (get_device_config false cudaAvailable machine).1 = "cpu" ∧
    (get_device_config torchAvailable cudaAvailable machine = ("cuda", "float16") ∨
      get_device_config torchAvailable cudaAvailable machine = ("cpu", "float32") ∨
      get_device_config torchAvailable cudaAvailable machine = ("cpu", "int8")) := by
  refine ⟨by simp [get_device_config], ?_, ?_⟩
  · unfold get_device_config
    split_ifs <;> simp_all
  · unfold get_device_config
    split_ifs <;> simp_all

/-- C2: with no GPU available, any architecture string lowercasing to
"arm64" or "aarch64" selects ("cpu", "float32"), and every other
architecture string (such as "x86_64") selects ("cpu", "int8"). -/
theorem c2_cpu_selection (torchAvailable cudaAvailable : Bool) (machine : String)
    (hNoGpu : (torchAvailable && cudaAvailable) = false) :
    ((pyLower machine = "arm64" ∨ pyLower machine = "aarch64") →
      get_device_config torchAvailable cudaAvailable machine = ("cpu", "float32")) ∧
    ((pyLower machine ≠ "arm64" ∧ pyLower machine ≠ "aarch64") →
      get_device_config torchAvailable cudaAvailable machine = ("cpu", "int8")) := by
  unfold get_device_config
  rw [hNoGpu]
  constructor
  · intro h
    rw [if_neg (by simp), if_pos h]
  · intro h
    rw [if_neg (by simp), if_neg (fun hc => hc.elim h.1 h.2)]

/-- Witness for C2 at concrete inputs: mixed-case ARM strings give
("cpu", "float32") and "x86_64" gives ("cpu", "int8"). -/
theorem c2_cpu_selection_witness :
    ((false && false) = false) ∧
    get_device_config false false "AArch64" = ("cpu", "float32") ∧
    get_device_config false false "ARM64" = ("cpu", "float32") ∧
    get_device_config false false "x86_64" = ("cpu", "int8") :=
  ⟨rfl,
   (c2_cpu_selection false false "AArch64" rfl).1 (Or.inr (by decide)),
   (c2_cpu_selection false false "ARM64" rfl).1 (Or.inl (by decide)),
   (c2_cpu_selection false false "x86_64" rfl).2 (by decide)⟩

/-- C3: when the declared media type is missing, empty, or does not start
with "audio/", the handler answers 400 with a message echoing the offending
declared type, and its effect trace is empty: no temp file is created and
the engine is never invoked. -/
theorem c3_reject_non_audio (engine : Engine) (tmpBase : String)
    (content_type : Option String)
    (hBad : ∀ s, content_type = some s → pyStartsWith s "audio/" = false) :
    transcribe engine tmpBase content_type =
      (.httpError 400 ("Expected audio file, got " ++ contentTypeText content_type),
       []) ∧
    countCreates (transcribe engine tmpBase content_type).2 = 0 ∧
    countCalls (transcribe engine tmpBase content_type).2 = 0 := by
  have hcond : (!contentTypeTruthy content_type
      || !(pyStartsWith (contentTypeText content_type) "audio/")) = true := by
    cases content_type with
    | none => rfl
    | some s => simp [contentTypeTruthy, contentTypeText, hBad s rfl]
  have h1 : transcribe engine tmpBase content_type =
      (.httpError 400 ("Expected audio file, got " ++ contentTypeText content_type),
       []) := by
    unfold transcribe
    rw [if_pos hcond]
  rw [h1]
  exact ⟨rfl, rfl, rfl⟩

/-- Witness for C3 at the concrete declared type "text/plain". -/
theorem c3_reject_non_audio_witness :
    (∀ s, (some "text/plain" : Option String) = some s →
      pyStartsWith s "audio/" = false) ∧
    transcribe (fun _ _ => .err "unused") "/tmp/t" (some "text/plain") =
      (.httpError 400 "Expected audio file, got text/plain", []) := by
  have hBad : ∀ s, (some "text/plain" : Option String) = some s →
      pyStartsWith s "audio/" = false := by
    intro s hs
    cases hs
    decide
  exact ⟨hBad,
    (c3_reject_non_audio (fun _ _ => .err "unused") "/tmp/t" (some "text/plain")
      hBad).1⟩

/-- C4: whenever the handler creates a temporary file, that file is unlinked
exactly once in the handler's trace (success or engine failure alike), and
at the end of the trace no temporary file created during the request
remains. -/
theorem c4_temp_cleanup (engine : Engine) (tmpBase : String)
    (content_type : Option String) (p : String)
    (hCreated : Event.createTemp p ∈ (transcribe engine tmpBase content_type).2) :
    countUnlinks p (transcribe engine tmpBase content_type).2 = 1 ∧
    filesAfter [] (transcribe engine tmpBase content_type).2 = [] := by
  by_cases hcond : (!contentTypeTruthy content_type
      || !(pyStartsWith (contentTypeText content_type) "audio/")) = true
  · have h1 : transcribe engine tmpBase content_type =
        (.httpError 400 ("Expected audio file, got " ++ contentTypeText content_type),
         []) := by
      unfold transcribe
      rw [if_pos hcond]
    rw [h1] at hCreated
    exact absurd hCreated (by simp)
  · cases content_type with
    | none => exact absurd rfl hcond
    | some s =>
      rw [Bool.not_eq_true] at hcond
      have hsw : pyStartsWith s "audio/" = true := by
        rcases Bool.or_eq_false_iff.mp hcond with ⟨-, h2⟩
        simpa using h2
      rw [transcribe_some_eq engine tmpBase s hsw] at hCreated ⊢
      simp only [List.mem_cons, List.not_mem_nil, or_false] at hCreated
      have hpq : p = tmpBase ++ _get_suffix s := by
        rcases hCreated with h | h | h
        · exact (Event.createTemp.injEq _ _).mp h
        · exact absurd h (by simp)
        · exact absurd h (by simp)
      subst hpq
      constructor
      · simp [countUnlinks]
      · simp [filesAfter, applyEvent, List.erase_cons_head]

/-- Witness for C4 at a concrete failing engine: the trace created
"/tmp/t.webm", unlinks it once, and leaves no file behind. -/
theorem c4_temp_cleanup_witness :
    Event.createTemp "/tmp/t.webm" ∈
      (transcribe (fun _ _ => .err "boom") "/tmp/t" (some "audio/webm")).2 ∧
    countUnlinks "/tmp/t.webm"
      (transcribe (fun _ _ => .err "boom") "/tmp/t" (some "audio/webm")).2 = 1 ∧
    filesAfter []
      (transcribe (fun _ _ => .err "boom") "/tmp/t" (some "audio/webm")).2 = [] := by
  have hmem : Event.createTemp "/tmp/t.webm" ∈
      (transcribe (fun _ _ => .err "boom") "/tmp/t" (some "audio/webm")).2 := by
    decide
  exact ⟨hmem,
    (c4_temp_cleanup (fun _ _ => .err "boom") "/tmp/t" (some "audio/webm")
      "/tmp/t.webm" hmem).1,
    (c4_temp_cleanup (fun _ _ => .err "boom") "/tmp/t" (some "audio/webm")
      "/tmp/t.webm" hmem).2⟩

/-- C5: when the engine raises, the handler answers 500 and the body is the
engine's message text carried verbatim (prefixed by "Transcription failed: "),
with a single engine invocation (no retry). -/
theorem c5_engine_error_500 (engine : Engine) (tmpBase s msg : String)
    (hAudio : pyStartsWith s "audio/" = true)
    (hFail : engine (tmpBase ++ _get_suffix s) requestOptions = .err msg) :
    (transcribe engine tmpBase (some s)).1 =
      .httpError 500 ("Transcription failed: " ++ msg) ∧
    countCalls (transcribe engine tmpBase (some s)).2 = 1 := by
  rw [transcribe_some_eq engine tmpBase s hAudio]
  rw [hFail]
  exact ⟨rfl, rfl⟩

/-- Witness for C5 at a concrete engine that raises "decode failed". -/
theorem c5_engine_error_500_witness :
    pyStartsWith "audio/webm" "audio/" = true ∧
    (transcribe (fun _ _ => .err "decode failed") "/tmp/u" (some "audio/webm")).1 =
      .httpError 500 ("Transcription failed: " ++ "decode failed") ∧
    countCalls
      (transcribe (fun _ _ => .err "decode failed") "/tmp/u" (some "audio/webm")).2 = 1 :=
  ⟨by decide,
   (c5_engine_error_500 (fun _ _ => .err "decode failed") "/tmp/u" "audio/webm"
     "decode failed" (by decide) rfl).1,
   (c5_engine_error_500 (fun _ _ => .err "decode failed") "/tmp/u" "audio/webm"
     "decode failed" (by decide) rfl).2⟩

/-- C6: on success the response text is the engine's segment texts each
stripped of leading/trailing whitespace and joined with a single space; in
particular segments "  hello " and "world  " give exactly "hello world". -/
theorem c6_text_joining (engine : Engine) (tmpBase s : String)
    (segments : List Segment) (info : TranscriptionInfo)
    (hAudio : pyStartsWith s "audio/" = true)
    (hOk : engine (tmpBase ++ _get_suffix s) requestOptions = .ok segments info) :
    (transcribe engine tmpBase (some s)).1 =
      .ok (strJoin " " (segments.map fun seg => pyStrip seg.text))
        info.language info.language_probability info.duration ∧
    (segments = [⟨"  hello "⟩, ⟨"world  "⟩] →
      (transcribe engine tmpBase (some s)).1 =
        .ok "hello world" info.language info.language_probability info.duration) := by
  have h1 : (transcribe engine tmpBase (some s)).1 =
      .ok (strJoin " " (segments.map fun seg => pyStrip seg.text))
        info.language info.language_probability info.duration := by
    rw [transcribe_some_eq engine tmpBase s hAudio, hOk]
  refine ⟨h1, ?_⟩
  intro hsegs
  rw [h1, hsegs]
  have hjoin : strJoin " "
      ([Segment.mk "  hello ", Segment.mk "world  "].map fun seg => pyStrip seg.text) =
      "hello world" := by decide
  rw [hjoin]

/-- Witness for C6 at a concrete engine returning the example segments. -/
theorem c6_text_joining_witness :
    pyStartsWith "audio/wav" "audio/" = true ∧
    ((fun _ _ => EngineResult.ok [⟨"  hello "⟩, ⟨"world  "⟩] ⟨"en", 1/2, 3⟩ : Engine)
      ("/tmp/v" ++ _get_suffix "audio/wav") requestOptions =
        .ok [⟨"  hello "⟩, ⟨"world  "⟩] ⟨"en", 1/2, 3⟩) ∧
    (transcribe (fun _ _ => .ok [⟨"  hello "⟩, ⟨"world  "⟩] ⟨"en", 1/2, 3⟩)
        "/tmp/v" (some "audio/wav")).1 =
      .ok "hello world" "en" (1/2) 3 :=
  ⟨by decide, rfl,
   (c6_text_joining (fun _ _ => .ok [⟨"  hello "⟩, ⟨"world  "⟩] ⟨"en", 1/2, 3⟩)
     "/tmp/v" "audio/wav" [⟨"  hello "⟩, ⟨"world  "⟩] ⟨"en", 1/2, 3⟩
     (by decide) rfl).2 rfl⟩

/-- C7: the media-type-to-suffix table is exactly the fixed dictionary of
the source, and any content type not among its keys maps to ".audio". -/
theorem c7_suffix_table :
    (_get_suffix "audio/webm" = ".webm" ∧
     _get_suffix "audio/wav" = ".wav" ∧
     _get_suffix "audio/wave" = ".wav" ∧
     _get_suffix "audio/x-wav" = ".wav" ∧
     _get_suffix "audio/mp3" = ".mp3" ∧
     _get_suffix "audio/mpeg" = ".mp3" ∧
     _get_suffix "audio/m4a" = ".m4a" ∧
     _get_suffix "audio/mp4" = ".m4a" ∧
     _get_suffix "audio/ogg" = ".ogg" ∧
     _get_suffix "audio/flac" = ".flac") ∧
    ∀ ct, (∀ kv ∈ suffixMapping, ct ≠ kv.1) → _get_suffix ct = ".audio" := by
  constructor
  · decide
  · intro ct h
    exact lookupDefault_not_mem ct suffixMapping h

/-- Witness for C7 at the unmapped audio type "audio/opus". -/
theorem c7_suffix_table_witness :
    (∀ kv ∈ suffixMapping, "audio/opus" ≠ kv.1) ∧
    _get_suffix "audio/opus" = ".audio" :=
  ⟨by decide, c7_suffix_table.2 "audio/opus" (by decide)⟩

/-- C8: the health endpoint is a pure, total read of the startup state: it
always answers status "ok" with the configured model identifier and the
device and compute type chosen at startup, takes no engine, and performs no
effects. -/
theorem c8_health_report (model_size : String) (torchAvailable cudaAvailable : Bool)
    (machine : String) (st : AppState) :
    health (startupState model_size torchAvailable cudaAvailable machine) =
      ⟨"ok", model_size,
       (get_device_config torchAvailable cudaAvailable machine).1,
       (get_device_config torchAvailable cudaAvailable machine).2⟩ ∧
    (health st).status = "ok" ∧
    health st = ⟨"ok", st.model_size, st.device, st.compute_type⟩ :=
  ⟨rfl, rfl, rfl⟩

/-- C9: the "audio/" prefix check is case-sensitive: the declared types
"Audio/wav" and "AUDIO/mpeg" are rejected with 400 and an empty effect
trace, whatever the engine and temp-file name. -/
theorem c9_case_sensitive_reject (engine : Engine) (tmpBase : String) :
    transcribe engine tmpBase (some "Audio/wav") =
      (.httpError 400 ("Expected audio file, got " ++ "Audio/wav"), []) ∧
    transcribe engine tmpBase (some "AUDIO/mpeg") =
      (.httpError 400 ("Expected audio file, got " ++ "AUDIO/mpeg"), []) := by
  constructor <;>
  · unfold transcribe
    rw [if_pos (by decide)]
    rfl

/-- C10: an engine returning no segments still yields a success response
whose text is exactly the empty string. -/
theorem c10_empty_segments (engine : Engine) (tmpBase s : String)
    (info : TranscriptionInfo)
    (hAudio : pyStartsWith s "audio/" = true)
    (hOk : engine (tmpBase ++ _get_suffix s) requestOptions = .ok [] info) :
    (transcribe engine tmpBase (some s)).1 =
      .ok "" info.language info.language_probability info.duration := by
  rw [transcribe_some_eq engine tmpBase s hAudio, hOk]
  rfl

/-- Witness for C10 at a concrete engine returning no segments. -/
theorem c10_empty_segments_witness :
    pyStartsWith "audio/ogg" "audio/" = true ∧
    ((fun _ _ => EngineResult.ok [] ⟨"en", 1/2, 3⟩ : Engine)
      ("/tmp/w" ++ _get_suffix "audio/ogg") requestOptions = .ok [] ⟨"en", 1/2, 3⟩) ∧
    (transcribe (fun _ _ => .ok [] ⟨"en", 1/2, 3⟩) "/tmp/w" (some "audio/ogg")).1 =
      .ok "" "en" (1/2) 3 :=
  ⟨by decide, rfl,
   c10_empty_segments (fun _ _ => .ok [] ⟨"en", 1/2, 3⟩) "/tmp/w" "audio/ogg"
     ⟨"en", 1/2, 3⟩ (by decide) rfl⟩

end WhisperService
